import Mathlib

/-!
Verification of the VR_Controller_RAIC_ModelV frontend command-dispatch and
status-synchronization engine.

The repository ships several variants of the same Three.js frontend.  The most
evolved one (with the patrol sequencer and automatic capture) is the script
embedded in `src/README.md`; an earlier AGV-task-tracking variant lives in
`src/static/app.js`.  Both are single-threaded, event driven JS.  We embed them
as pure state-transition functions: every network response and timer handle is
an explicit input, every outward call (the remote `/click` endpoint, the
`/capture` endpoint, resolving the patrol-step promise) is recorded as an
event in the returned event list.  DOM styling, Three.js scene construction and
the hover plane are out of scope (the spec treats them as external); the status
line text is kept because several claims are about surfaced messages.
-/

namespace VRController

/-- Value stored in `currentClickX` / `currentClickY`: a number or the string
literal used by the HOME button handler. -/
inductive XY
  | num (n : Nat)
  | home
deriving DecidableEq, Repr

/-- Outward-visible effects of a transition: a POST to `/click`, a POST to
`/capture` (with the stored click coordinates), or invoking the stored
patrol-step resolve function. -/
inductive Event
  | remoteClick (x y : Nat)
  | captureRequest (x y : Option XY)
  | resolvePatrol
deriving DecidableEq, Repr

def isCaptureEvent : Event → Bool
  | Event.captureRequest _ _ => true
  | _ => false

def isResolveEvent : Event → Bool
  | Event.resolvePatrol => true
  | _ => false

/-- The mutable globals of the README (patrol) frontend.  `liveIntervals`
models the set of interval timers the browser currently runs
(`setInterval` adds a handle, `clearInterval` removes it); it lets us state
that the guarded start leaks no interval. -/
structure FrontState where
  isSystemBusy : Bool
  wasSystemBusy : Bool
  systemPollingIntervalId : Option Nat
  liveIntervals : List Nat
  currentClickX : Option XY
  currentClickY : Option XY
  /-- whether `patrolResolveFunction` currently holds a resolve callback -/
  patrolResolveFunction : Bool
  statusMessage : String
deriving DecidableEq, Repr

/-- State of the frontend before any interaction. -/
def initState : FrontState :=
  { isSystemBusy := false
    wasSystemBusy := false
    systemPollingIntervalId := none
    liveIntervals := []
    currentClickX := none
    currentClickY := none
    patrolResolveFunction := false
    statusMessage := "" }

/-- JS `v || dflt` on an optional string: `undefined` and the empty string both
fall back to the default. -/
def jsOr (v : Option String) (dflt : String) : String :=
  match v with
  | some m => if m = "" then dflt else m
  | none => dflt

/-- `updateSystemBusyStatus(busy, message)` (README variant): store the busy
flag and rewrite the status line; the busy branch also hides the hover plane
(not modelled). -/
def updateSystemBusyStatus (busy : Bool) (message : String) (s : FrontState) :
    FrontState :=
  if busy then
    { s with isSystemBusy := true
             statusMessage :=
               "系統忙碌中：" ++ (if message = "" then "上一個工作尚未完成" else message)
                 ++ "，請稍候。" }
  else
    { s with isSystemBusy := false
             statusMessage :=
               "系統就緒：" ++ (if message = "" then "可點擊方塊送出新命令。" else message) }

/-- `stopPollingSystemStatus()`: when an interval is active, clear it and, if a
patrol-step resolve function is registered, invoke it and clear it; when no
interval is active, do nothing at all. -/
def stopPollingSystemStatus (s : FrontState) : FrontState × List Event :=
  match s.systemPollingIntervalId with
  | none => (s, [])
  | some h =>
    let s1 := { s with systemPollingIntervalId := none
                       liveIntervals := s.liveIntervals.erase h }
    if s1.patrolResolveFunction then
      ({ s1 with patrolResolveFunction := false }, [Event.resolvePatrol])
    else
      (s1, [])

/-- `startPollingSystemStatus()`: guarded start.  When no interval is active,
set `wasSystemBusy = true` and install a fresh interval `h`; otherwise do
nothing.  The immediate `pollSystemStatus()` call it also makes suspends at its
`fetch` before any of its effects run, i.e. after the interval id is assigned,
so in traces it is a separate poll step following this one. -/
def startPollingSystemStatus (h : Nat) (s : FrontState) : FrontState :=
  match s.systemPollingIntervalId with
  | none =>
    { s with wasSystemBusy := true
             systemPollingIntervalId := some h
             liveIntervals := h :: s.liveIntervals }
  | some _ => s

/-- `triggerCapture()`: issue the `/capture` request carrying the coordinates
stored at dispatch time, then clear them.  (The body is read synchronously
before the fetch; the response only appends to the status line, which we
omit.) -/
def triggerCapture (s : FrontState) : FrontState × List Event :=
  ({ s with currentClickX := none, currentClickY := none },
   [Event.captureRequest s.currentClickX s.currentClickY])

/-- One `/agv/status-summary` response as seen by `pollSystemStatus`:
a well-formed summary (`resp.ok` and `system_busy` present), a bad summary
(`!resp.ok` or the field missing), or a thrown fetch/parse error. -/
inductive PollResponse
  | summary (system_busy : Bool) (message : Option String)
  | badSummary (error : Option String)
  | fetchError (message : String)
deriving DecidableEq, Repr

/-- One run of `pollSystemStatus()` processing response `r`.  A well-formed
summary updates the busy flag, fires `triggerCapture()` exactly on the
busy-to-idle edge (`wasSystemBusy && !system_busy`), and stops polling when not
busy; failures of any kind are treated as busy with an error message.  The
`finally` block copies the busy flag into `wasSystemBusy`. -/
def pollSystemStatus (r : PollResponse) (s : FrontState) : FrontState × List Event :=
  let (s1, evs) :=
    match r with
    | PollResponse.summary busy msg =>
      let sA := updateSystemBusyStatus busy (jsOr msg ("執行中...")) s
      let (sB, evsB) :=
        if s.wasSystemBusy && !busy then triggerCapture sA else (sA, [])
      if !busy then
        let (sC, evsC) := stopPollingSystemStatus sB
        (sC, evsB ++ evsC)
      else
        (sB, evsB)
    | PollResponse.badSummary err =>
      (updateSystemBusyStatus true (jsOr err ("Server 無法取得系統狀態。")) s, [])
    | PollResponse.fetchError m =>
      (updateSystemBusyStatus true ("通訊錯誤：" ++ m) s, [])
  ({ s1 with wasSystemBusy := s1.isSystemBusy }, evs)

/-- One firing of the polling interval: the callback runs only while the
interval is installed. -/
def tick (r : PollResponse) (s : FrontState) : FrontState × List Event :=
  match s.systemPollingIntervalId with
  | none => (s, [])
  | some _ => pollSystemStatus r s

/-- A sequence of interval firings with the given responses; the event traces
of the firings are concatenated. -/
def runTicks (rs : List PollResponse) (s : FrontState) : FrontState × List Event :=
  match rs with
  | [] => (s, [])
  | r :: rest =>
    ((runTicks rest (tick r s).1).1,
     (tick r s).2 ++ (runTicks rest (tick r s).1).2)

/-- Server acknowledgment of a `/click` POST: accepted (`resp.ok && data.ok`),
rejected (non-2xx or `ok:false`, carrying `data.error`), or a thrown
network/parse error. -/
inductive ClickResponse
  | accepted (x y : Nat)
  | rejected (error : Option String)
  | fetchError (message : String)
deriving DecidableEq, Repr

/-- Synchronous prefix of `sendClick(x, y)` (README variant): when busy the
whole call is a guarded no-op; otherwise mark busy, store the coordinates for
a later capture, and issue the remote `/click` call. -/
def sendClickStart (x y : Nat) (s : FrontState) : FrontState × List Event :=
  if s.isSystemBusy then
    (s, [])
  else
    let s1 := updateSystemBusyStatus true ("正在分派任務...") s
    ({ s1 with currentClickX := some (XY.num x), currentClickY := some (XY.num y) },
     [Event.remoteClick x y])

/-- The `.then`/`.catch` continuation of `sendClick` handling acknowledgment
`r`; `h` is the interval handle a successful start would install.  A rejection
unlocks the UI (`updateSystemBusyStatus(false, ...)` after writing the failure
to the status line) and calls `stopPollingSystemStatus()`; acceptance starts
polling. -/
def sendClickResponse (r : ClickResponse) (h : Nat) (s : FrontState) :
    FrontState × List Event :=
  match r with
  | ClickResponse.rejected err =>
    let s1 := { s with statusMessage := "指令失敗: " ++ jsOr err ("未知的錯誤") }
    let s2 := updateSystemBusyStatus false ("指令被伺服器拒絕，請重試。") s1
    stopPollingSystemStatus s2
  | ClickResponse.accepted dx dy =>
    let s1 := { s with statusMessage :=
      "狀態：OK (任務已分派 x=" ++ toString dx ++ ", y=" ++ toString dy ++ ")" }
    (startPollingSystemStatus h s1, [])
  | ClickResponse.fetchError m =>
    let s1 := { s with statusMessage := "請求失敗: " ++ m }
    let s2 := updateSystemBusyStatus false ("請求失敗，請檢查網路連線。") s1
    stopPollingSystemStatus s2

/-- Synchronous prefix of `dispatchClickAndWait(x, y)`: register the patrol
resolve function, then run `sendClick(x, y)`. -/
def dispatchClickAndWaitStart (x y : Nat) (s : FrontState) : FrontState × List Event :=
  sendClickStart x y { s with patrolResolveFunction := true }

/-- Server acknowledgment of the `/agv/home` POST. -/
inductive HomeResponse
  | accepted
  | rejected (error : Option String)
  | fetchError (message : String)
deriving DecidableEq, Repr

/-- Synchronous prefix of the HOME button handler: guarded by the busy flag;
stores the `home` sentinel as the capture coordinate and issues the
`/agv/home` call. -/
def homeCommandStart (s : FrontState) : FrontState :=
  if s.isSystemBusy then s
  else
    let s1 := updateSystemBusyStatus true ("正在發送 AGV HOME 指令...") s
    { s1 with currentClickX := some XY.home, currentClickY := some XY.home }

/-- Continuation of the HOME button handler on acknowledgment `r`. -/
def homeCommandResponse (r : HomeResponse) (h : Nat) (s : FrontState) :
    FrontState × List Event :=
  match r with
  | HomeResponse.rejected err =>
    let s1 := { s with statusMessage := "Error: " ++ jsOr err ("AGV HOME failed") }
    let s2 := updateSystemBusyStatus false (jsOr err ("AGV HOME failed")) s1
    stopPollingSystemStatus s2
  | HomeResponse.accepted =>
    let s1 := { s with statusMessage := "狀態：已送出 HOME，等待完成..." }
    (startPollingSystemStatus h s1, [])
  | HomeResponse.fetchError m =>
    let s1 := updateSystemBusyStatus false ("請求失敗: " ++ m) s
    stopPollingSystemStatus s1

/-- All transitions the README frontend can make, each parametrized by the
environment inputs (responses, fresh timer handles).  Fresh handles are those
not currently live. -/
inductive Step : FrontState → FrontState → Prop
  | poll (r : PollResponse) (s : FrontState) : Step s (pollSystemStatus r s).1
  | clickStart (x y : Nat) (s : FrontState) : Step s (sendClickStart x y s).1
  | clickResponse (r : ClickResponse) (h : Nat) (s : FrontState)
      (hfresh : h ∉ s.liveIntervals) : Step s (sendClickResponse r h s).1
  | patrolStepStart (x y : Nat) (s : FrontState) :
      Step s (dispatchClickAndWaitStart x y s).1
  | homeStart (s : FrontState) : Step s (homeCommandStart s)
  | homeResponse (r : HomeResponse) (h : Nat) (s : FrontState)
      (hfresh : h ∉ s.liveIntervals) : Step s (homeCommandResponse r h s).1
  | stopPoll (s : FrontState) : Step s (stopPollingSystemStatus s).1
  | startPoll (h : Nat) (s : FrontState) (hfresh : h ∉ s.liveIntervals) :
      Step s (startPollingSystemStatus h s)

/-- A state the frontend can reach from page load. -/
def Reachable (s : FrontState) : Prop :=
  Relation.ReflTransGen Step initState s

/-- The interval handles the guarded lifecycle should have live: exactly the
one stored in `systemPollingIntervalId`, if any. -/
def activeHandles (s : FrontState) : List Nat :=
  match s.systemPollingIntervalId with
  | some h => [h]
  | none => []

/-- Single-poller invariant: the live browser intervals are exactly the
tracked one. -/
def IntervalInv (s : FrontState) : Prop :=
  s.liveIntervals = activeHandles s

/- ===========================================================
   The AGV-task-tracking variant from `src/static/app.js`.
   =========================================================== -/

/-- Mutable globals of the `src/static/app.js` variant (status-line text not
needed for the claims about this variant and omitted). -/
structure AgvState where
  isAgvBusy : Bool
  agvPollingIntervalId : Option Nat
  currentAgvTaskNumber : Option Nat
deriving DecidableEq, Repr

/-- `stopPollingAgvStatus()`: clear the interval and the tracked task when an
interval is active; otherwise do nothing. -/
def stopPollingAgvStatus (s : AgvState) : AgvState :=
  match s.agvPollingIntervalId with
  | some _ => { s with agvPollingIntervalId := none, currentAgvTaskNumber := none }
  | none => s

/-- `startPollingAgvStatus(taskNumber)`: guarded start; installs a fresh
interval `h` and records the tracked task only when no interval is active. -/
def startPollingAgvStatus (taskNumber : Option Nat) (h : Nat) (s : AgvState) :
    AgvState :=
  match s.agvPollingIntervalId with
  | none => { s with agvPollingIntervalId := some h, currentAgvTaskNumber := taskNumber }
  | some _ => s

/-- `updateAgvBusyStatus(busy, message, agvRawStatus)` (app.js variant): set
the busy flag; additionally, when reporting not-busy with a raw status of
WAITING, CHARGING or IDLE, stop polling.  Status-line updates omitted. -/
def updateAgvBusyStatus (busy : Bool) (rawStatus : Option String) (s : AgvState) :
    AgvState :=
  let s1 := { s with isAgvBusy := busy }
  if busy then s1
  else
    match rawStatus with
    | some st =>
      if st = "WAITING" ∨ st = "CHARGING" ∨ st = "IDLE" then
        stopPollingAgvStatus s1
      else s1
    | none => s1

/-- Shapes of the `/click` acknowledgment distinguished by the app.js
handler: `agv_result.busy` set, `!d.ok`, `agv_result.noop`, success with an
optional task number, or a thrown error. -/
inductive AgvClickResponse
  | busyReport (status : String)
  | notOk
  | noopResult
  | okResult (taskNumber : Option Nat)
  | fetchError (message : String)
deriving DecidableEq, Repr

/-- Synchronous prefix of `sendClick(x, y)` (app.js variant): guarded no-op
when busy, otherwise mark busy and issue the remote call. -/
def agvSendClickStart (x y : Nat) (s : AgvState) : AgvState × List Event :=
  if s.isAgvBusy then (s, [])
  else (updateAgvBusyStatus true none s, [Event.remoteClick x y])

/-- The `.then`/`.catch` continuation of the app.js `sendClick`.  Note the
`!d.ok` branch keeps the busy flag set (`updateAgvBusyStatus(true, ...)`) and
stops polling. -/
def agvSendClickResponse (r : AgvClickResponse) (h : Nat) (s : AgvState) : AgvState :=
  match r with
  | AgvClickResponse.busyReport _ => stopPollingAgvStatus (updateAgvBusyStatus true none s)
  | AgvClickResponse.notOk => stopPollingAgvStatus (updateAgvBusyStatus true none s)
  | AgvClickResponse.noopResult =>
    startPollingAgvStatus none h (updateAgvBusyStatus true none s)
  | AgvClickResponse.okResult t =>
    startPollingAgvStatus t h (updateAgvBusyStatus true none s)
  | AgvClickResponse.fetchError _ => stopPollingAgvStatus (updateAgvBusyStatus true none s)

/- ===========================================================
   Click hit handling and the grid bounds.
   =========================================================== -/

def COLS : Nat := 6
def ROWS : Nat := 10

/-- Which face of a cube the ray hit (decided in the source by dot products of
the world normal against FRONT_NORMAL / RIGHT_NORMAL with threshold ANG_TOL;
the geometric test itself is out of scope). -/
inductive Face
  | front
  | right
  | other
deriving DecidableEq, Repr

/-- A raycast hit: the machine control panel, or a cube with its stored
`userData` coordinates (built for `x` in 1..COLS, `y` in 1..ROWS). -/
inductive Hit
  | machinePanel
  | cube (x y : Nat) (face : Face)
deriving DecidableEq, Repr

/-- The coordinate `onClick` passes to `sendClick`, if any: front face sends
the cube's own `(x, y)`; the right face of the last column sends `(7, y)`;
the machine panel and any other face dispatch nothing. -/
def onClickDispatch (hit : Hit) : Option (Nat × Nat) :=
  match hit with
  | Hit.machinePanel => none
  | Hit.cube x y face =>
    match face with
    | Face.front => some (x, y)
    | Face.right => if x = COLS then some (7, y) else none
    | Face.other => none

/- ===========================================================
   Indicator position lookup.
   =========================================================== -/

/-- A value of the static `TARGET_TAG_TO_X` table: the string `'home'` or a
column number. -/
inductive TagVal
  | homeTag
  | col (n : Nat)
deriving DecidableEq, Repr

/-- The static `TARGET_TAG_TO_X` lookup table; absent keys give `none`
(JS `undefined`). -/
def TARGET_TAG_TO_X (tag : String) : Option TagVal :=
  if tag = "1001" then some TagVal.homeTag
  else if tag = "1002" then some (TagVal.col 1)
  else if tag = "1003" then some (TagVal.col 2)
  else if tag = "1004" then some (TagVal.col 3)
  else if tag = "1005" then some (TagVal.col 4)
  else if tag = "1006" then some (TagVal.col 5)
  else if tag = "1007" then some (TagVal.col 6)
  else if tag = "1009" then some (TagVal.col 7)
  else none

/-- Where the indicator tube is placed. -/
inductive IndicatorPos
  | homePos
  | column (n : Nat)
deriving DecidableEq, Repr

/-- The position selection of `initializeIndicatorPosition()` as a function of
the detected location tag: look the tag up in `TARGET_TAG_TO_X`; `'home'`
maps to HOME, a number in 1..7 to that column, and everything else (missing
tag, unknown tag) defaults to HOME. -/
def indicatorInitialPosition (locationTag : Option String) : IndicatorPos :=
  let agvX : Option TagVal :=
    match locationTag with
    | some t => TARGET_TAG_TO_X t
    | none => none
  match agvX with
  | some TagVal.homeTag => IndicatorPos.homePos
  | some (TagVal.col n) =>
    if 1 ≤ n ∧ n ≤ 7 then IndicatorPos.column n else IndicatorPos.homePos
  | none => IndicatorPos.homePos

/-- The indicator mapping as the spec words it: a device-reported location tag
goes to a grid column or to the distinguished home position via the static
lookup, and every missing or unknown tag yields home. -/
def specIndicatorPosition (locationTag : Option String) : IndicatorPos :=
  match locationTag with
  | none => IndicatorPos.homePos
  | some t =>
    match TARGET_TAG_TO_X t with
    | some TagVal.homeTag => IndicatorPos.homePos
    | some (TagVal.col n) => IndicatorPos.column n
    | none => IndicatorPos.homePos

/- ===========================================================
   Patrol waypoint generation.
   =========================================================== -/

def AGV_X_POSITIONS : Nat := 5
def TRACK_Y_POSITIONS : Nat := 9

/-- The y-sequence `startPatrol` builds for column `x`: `6..TRACK_Y_POSITIONS`
ascending when `x` is odd, descending when `x` is even. -/
def ySequence (x : Nat) : List Nat :=
  if x % 2 ≠ 0 then List.range' 6 (TRACK_Y_POSITIONS - 5)
  else (List.range' 6 (TRACK_Y_POSITIONS - 5)).reverse

/-- The waypoints of one patrol round: columns `1..AGV_X_POSITIONS` in
increasing order, each contributing its y-sequence. -/
def patrolRound : List (Nat × Nat) :=
  (List.range' 1 AGV_X_POSITIONS).flatMap (fun x => (ySequence x).map (fun y => (x, y)))

/-- The waypoints of `startPatrol(repeatTimes)`: the round repeated once per
round of the outer loop. -/
def patrolPlan (repeatTimes : Nat) : List (Nat × Nat) :=
  (List.range' 1 repeatTimes).flatMap (fun _ => patrolRound)

/- ===========================================================
   Concrete scenarios and demonstration states.
   =========================================================== -/

/-- `n` consecutive interval firings whose fetch fails with message `m`. -/
def failTicksIter (m : String) : Nat → FrontState → FrontState
  | 0, s => s
  | n + 1, s => failTicksIter m n (pollSystemStatus (PollResponse.fetchError m) s).1

/-- A full single-dispatch scenario from page load: `sendClick(x, y)`, an
accepting acknowledgment installing interval `h`, then the given sequence of
interval firings.  Returns the final state and the concatenated event
trace. -/
def clickScenario (x y h : Nat) (ticks : List PollResponse) :
    FrontState × List Event :=
  ((runTicks ticks (sendClickResponse (ClickResponse.accepted x y) h
      (sendClickStart x y initState).1).1).1,
   (sendClickStart x y initState).2 ++
     (sendClickResponse (ClickResponse.accepted x y) h
       (sendClickStart x y initState).1).2 ++
     (runTicks ticks (sendClickResponse (ClickResponse.accepted x y) h
       (sendClickStart x y initState).1).1).2)

/-- A frontend state that is busy dispatching. -/
def busyState : FrontState :=
  { initState with isSystemBusy := true }

/-- A frontend state with an active polling interval. -/
def pollingState : FrontState :=
  { initState with systemPollingIntervalId := some 0, liveIntervals := [0] }

/-- A frontend state mid-patrol-step: busy, polling, waiter registered. -/
def patrolPollingState : FrontState :=
  { initState with
    isSystemBusy := true
    wasSystemBusy := true
    systemPollingIntervalId := some 3
    liveIntervals := [3]
    patrolResolveFunction := true }

/-- An idle AGV-variant state. -/
def agvReadyState : AgvState :=
  { isAgvBusy := false, agvPollingIntervalId := none, currentAgvTaskNumber := none }

/-- An AGV-variant state with an active polling interval tracking task 9. -/
def agvPollingState : AgvState :=
  { isAgvBusy := true, agvPollingIntervalId := some 1, currentAgvTaskNumber := some 9 }

/- ===========================================================
   Helper lemmas.
   =========================================================== -/

@[simp]
lemma updateSystemBusyStatus_isSystemBusy (b : Bool) (m : String) (s : FrontState) :
    (updateSystemBusyStatus b m s).isSystemBusy = b := by
  unfold updateSystemBusyStatus; cases b <;> rfl

@[simp]
lemma updateSystemBusyStatus_intervalId (b : Bool) (m : String) (s : FrontState) :
    (updateSystemBusyStatus b m s).systemPollingIntervalId =
      s.systemPollingIntervalId := by
  unfold updateSystemBusyStatus; cases b <;> rfl

@[simp]
lemma updateSystemBusyStatus_liveIntervals (b : Bool) (m : String) (s : FrontState) :
    (updateSystemBusyStatus b m s).liveIntervals = s.liveIntervals := by
  unfold updateSystemBusyStatus; cases b <;> rfl

@[simp]
lemma updateSystemBusyStatus_wasSystemBusy (b : Bool) (m : String) (s : FrontState) :
    (updateSystemBusyStatus b m s).wasSystemBusy = s.wasSystemBusy := by
  unfold updateSystemBusyStatus; cases b <;> rfl

@[simp]
lemma updateSystemBusyStatus_patrolResolveFunction (b : Bool) (m : String)
    (s : FrontState) :
    (updateSystemBusyStatus b m s).patrolResolveFunction =
      s.patrolResolveFunction := by
  unfold updateSystemBusyStatus; cases b <;> rfl

@[simp]
lemma triggerCapture_intervalId (s : FrontState) :
    (triggerCapture s).1.systemPollingIntervalId = s.systemPollingIntervalId := rfl

@[simp]
lemma triggerCapture_liveIntervals (s : FrontState) :
    (triggerCapture s).1.liveIntervals = s.liveIntervals := rfl

@[simp]
lemma triggerCapture_isSystemBusy (s : FrontState) :
    (triggerCapture s).1.isSystemBusy = s.isSystemBusy := rfl

@[simp]
lemma triggerCapture_patrolResolveFunction (s : FrontState) :
    (triggerCapture s).1.patrolResolveFunction = s.patrolResolveFunction := rfl

/-- Unfolding of a stop on an inactive interval. -/
lemma stopPolling_of_none (s : FrontState) (hs : s.systemPollingIntervalId = none) :
    stopPollingSystemStatus s = (s, []) := by
  unfold stopPollingSystemStatus; rw [hs]

/-- Unfolding of a stop on an active interval. -/
lemma stopPolling_of_some (s : FrontState) (h : Nat)
    (hs : s.systemPollingIntervalId = some h) :
    stopPollingSystemStatus s =
      ({ s with systemPollingIntervalId := none
                liveIntervals := s.liveIntervals.erase h
                patrolResolveFunction := false },
       if s.patrolResolveFunction then [Event.resolvePatrol] else []) := by
  unfold stopPollingSystemStatus
  rw [hs]
  cases s with
  | mk b w id li cx cy pf msg =>
    cases pf <;> simp

lemma IntervalInv_stopPolling (s : FrontState) (hs : IntervalInv s) :
    IntervalInv (stopPollingSystemStatus s).1 := by
  cases hid : s.systemPollingIntervalId with
  | none => rw [stopPolling_of_none s hid]; exact hs
  | some h =>
    rw [stopPolling_of_some s h hid]
    unfold IntervalInv activeHandles at hs ⊢
    rw [hid] at hs
    simp [hs]

lemma IntervalInv_startPolling (h : Nat) (s : FrontState) (hs : IntervalInv s) :
    IntervalInv (startPollingSystemStatus h s) := by
  unfold startPollingSystemStatus
  cases hid : s.systemPollingIntervalId with
  | none =>
    unfold IntervalInv activeHandles at hs ⊢
    rw [hid] at hs
    simp [hs]
  | some h2 => exact hs

/-- The poll callback touches the interval bookkeeping only through
`stopPollingSystemStatus`, and only on a not-busy summary. -/
lemma poll_footprint (r : PollResponse) (s : FrontState) :
    ((pollSystemStatus r s).1.systemPollingIntervalId,
     (pollSystemStatus r s).1.liveIntervals) =
      match r with
      | PollResponse.summary false _ =>
        ((none : Option Nat),
         match s.systemPollingIntervalId with
         | some h => s.liveIntervals.erase h
         | none => s.liveIntervals)
      | _ => (s.systemPollingIntervalId, s.liveIntervals) := by
  cases r with
  | summary busy msg =>
    cases busy with
    | true =>
      cases hw : s.wasSystemBusy <;> simp [pollSystemStatus, hw]
    | false =>
      cases hw : s.wasSystemBusy <;>
        cases hid : s.systemPollingIntervalId <;>
          cases hp : s.patrolResolveFunction <;>
            simp [pollSystemStatus, stopPollingSystemStatus, hw, hid, hp]
  | badSummary err => simp [pollSystemStatus]
  | fetchError m => simp [pollSystemStatus]

/-- `IntervalInv` only looks at the interval fields. -/
lemma IntervalInv_congr (s t : FrontState)
    (hid : t.systemPollingIntervalId = s.systemPollingIntervalId)
    (hli : t.liveIntervals = s.liveIntervals) (hs : IntervalInv s) :
    IntervalInv t := by
  unfold IntervalInv activeHandles at hs ⊢
  rw [hid, hli]; exact hs

lemma IntervalInv_poll (r : PollResponse) (s : FrontState) (hs : IntervalInv s) :
    IntervalInv (pollSystemStatus r s).1 := by
  have hf := poll_footprint r s
  unfold IntervalInv activeHandles at hs ⊢
  cases r with
  | summary busy msg =>
    cases busy with
    | true =>
      rw [Prod.mk.injEq] at hf
      rw [hf.1, hf.2]; exact hs
    | false =>
      rw [Prod.mk.injEq] at hf
      rw [hf.1, hf.2]
      cases hid : s.systemPollingIntervalId with
      | none => rw [hid] at hs; exact hs
      | some h => rw [hid] at hs; simp [hs]
  | badSummary err =>
    rw [Prod.mk.injEq] at hf
    rw [hf.1, hf.2]; exact hs
  | fetchError m =>
    rw [Prod.mk.injEq] at hf
    rw [hf.1, hf.2]; exact hs

@[simp]
lemma sendClickStart_intervalId (x y : Nat) (s : FrontState) :
    (sendClickStart x y s).1.systemPollingIntervalId = s.systemPollingIntervalId := by
  unfold sendClickStart; cases hb : s.isSystemBusy <;> simp [hb]

@[simp]
lemma sendClickStart_liveIntervals (x y : Nat) (s : FrontState) :
    (sendClickStart x y s).1.liveIntervals = s.liveIntervals := by
  unfold sendClickStart; cases hb : s.isSystemBusy <;> simp [hb]

lemma IntervalInv_sendClickStart (x y : Nat) (s : FrontState) (hs : IntervalInv s) :
    IntervalInv (sendClickStart x y s).1 :=
  IntervalInv_congr s _ (sendClickStart_intervalId x y s)
    (sendClickStart_liveIntervals x y s) hs

lemma IntervalInv_sendClickResponse (r : ClickResponse) (h : Nat) (s : FrontState)
    (hs : IntervalInv s) : IntervalInv (sendClickResponse r h s).1 := by
  cases r with
  | rejected e =>
    exact IntervalInv_stopPolling _ (IntervalInv_congr s _ (by simp) (by simp) hs)
  | fetchError m =>
    exact IntervalInv_stopPolling _ (IntervalInv_congr s _ (by simp) (by simp) hs)
  | accepted dx dy =>
    exact IntervalInv_startPolling h _ (IntervalInv_congr s _ rfl rfl hs)

lemma IntervalInv_homeStart (s : FrontState) (hs : IntervalInv s) :
    IntervalInv (homeCommandStart s) := by
  unfold homeCommandStart
  cases hb : s.isSystemBusy with
  | true => simpa [hb] using hs
  | false =>
    simp only [hb, Bool.false_eq_true, if_false]
    exact IntervalInv_congr s _ (by simp) (by simp) hs

lemma IntervalInv_homeResponse (r : HomeResponse) (h : Nat) (s : FrontState)
    (hs : IntervalInv s) : IntervalInv (homeCommandResponse r h s).1 := by
  cases r with
  | rejected e =>
    exact IntervalInv_stopPolling _ (IntervalInv_congr s _ (by simp) (by simp) hs)
  | fetchError m =>
    exact IntervalInv_stopPolling _ (IntervalInv_congr s _ (by simp) (by simp) hs)
  | accepted =>
    exact IntervalInv_startPolling h _ (IntervalInv_congr s _ rfl rfl hs)

lemma IntervalInv_patrolStepStart (x y : Nat) (s : FrontState) (hs : IntervalInv s) :
    IntervalInv (dispatchClickAndWaitStart x y s).1 :=
  IntervalInv_sendClickStart x y _ (IntervalInv_congr s _ rfl rfl hs)

/-- Every transition of the engine preserves the single-poller invariant. -/
lemma IntervalInv_step {s t : FrontState} (hs : IntervalInv s) (hst : Step s t) :
    IntervalInv t := by
  cases hst with
  | poll r s => exact IntervalInv_poll r s hs
  | clickStart x y s => exact IntervalInv_sendClickStart x y s hs
  | clickResponse r h s hfresh => exact IntervalInv_sendClickResponse r h s hs
  | patrolStepStart x y s => exact IntervalInv_patrolStepStart x y s hs
  | homeStart s => exact IntervalInv_homeStart s hs
  | homeResponse r h s hfresh => exact IntervalInv_homeResponse r h s hs
  | stopPoll s => exact IntervalInv_stopPolling s hs
  | startPoll h s hfresh => exact IntervalInv_startPolling h s hs

/-- The single-poller invariant holds in every reachable state. -/
lemma IntervalInv_reachable (s : FrontState) (h : Reachable s) : IntervalInv s := by
  unfold Reachable at h
  induction h with
  | refl => rfl
  | tail hab hbc ih => exact IntervalInv_step ih hbc

lemma range'_flatMap_const {α : Type} (L : List α) (a n : Nat) :
    (List.range' a n).flatMap (fun _ => L) = (List.replicate n L).flatten := by
  induction n generalizing a with
  | zero => rfl
  | succ k ih =>
    show (a :: List.range' (a + 1) k).flatMap (fun _ => L) = _
    simp [List.replicate_succ, ih]

/-- After any stop, no interval is tracked. -/
lemma stopPolling_intervalId_result (s : FrontState) :
    (stopPollingSystemStatus s).1.systemPollingIntervalId = none := by
  cases hid : s.systemPollingIntervalId with
  | none => rw [stopPolling_of_none s hid]; exact hid
  | some h =>
    rw [stopPolling_of_some s h hid]

/-- Stopping never touches the busy flag. -/
lemma stopPolling_isSystemBusy (s : FrontState) :
    (stopPollingSystemStatus s).1.isSystemBusy = s.isSystemBusy := by
  cases hid : s.systemPollingIntervalId with
  | none => rw [stopPolling_of_none s hid]
  | some h =>
    rw [stopPolling_of_some s h hid]

/-- After any AGV-variant stop, no interval is tracked. -/
lemma stopAgv_intervalId_result (s : AgvState) :
    (stopPollingAgvStatus s).agvPollingIntervalId = none := by
  unfold stopPollingAgvStatus
  split <;> simp_all

/-- The AGV-variant stop never touches the busy flag. -/
lemma stopAgv_isAgvBusy (s : AgvState) :
    (stopPollingAgvStatus s).isAgvBusy = s.isAgvBusy := by
  unfold stopPollingAgvStatus
  split <;> rfl

/-- Interval firings do nothing while no interval is installed. -/
lemma runTicks_of_none (rs : List PollResponse) (s : FrontState)
    (hs : s.systemPollingIntervalId = none) : runTicks rs s = (s, []) := by
  induction rs with
  | nil => rfl
  | cons r rest ih =>
    have ht : tick r s = (s, []) := by unfold tick; rw [hs]
    simp [runTicks, ht, ih]

/- ===========================================================
   Claims.
   =========================================================== -/

/-- C1: at most one poll session is active system-wide.  Calling the
poll-start operation while an interval is already active is a no-op in both
frontend variants — it neither installs a second interval nor changes the
tracked task — and consequently every state the engine can reach from page
load has at most one live polling interval. -/
theorem claim1_single_active_poll_session :
    (∀ (s : FrontState) (h : Nat), s.systemPollingIntervalId.isSome = true →
      startPollingSystemStatus h s = s) ∧
    (∀ (s : AgvState) (t : Option Nat) (h : Nat), s.agvPollingIntervalId.isSome = true →
      startPollingAgvStatus t h s = s) ∧
    (∀ s : FrontState, Reachable s → s.liveIntervals.length ≤ 1) := by
  refine ⟨?_, ?_, ?_⟩
  · intro s h hs
    unfold startPollingSystemStatus
    cases hid : s.systemPollingIntervalId with
    | none => rw [hid] at hs; simp at hs
    | some h2 => rfl
  · intro s t h hs
    unfold startPollingAgvStatus
    cases hid : s.agvPollingIntervalId with
    | none => rw [hid] at hs; simp at hs
    | some h2 => rfl
  · intro s hr
    have hi := IntervalInv_reachable s hr
    unfold IntervalInv activeHandles at hi
    cases hid : s.systemPollingIntervalId <;> rw [hid] at hi <;> simp [hi]

/-- Witness for C1 at concrete states: a start on an already-polling state
of either variant changes nothing, and the page-load state has at most one
live interval. -/
theorem claim1_witness :
    startPollingSystemStatus 1 pollingState = pollingState ∧
    startPollingAgvStatus (some 7) 2 agvPollingState = agvPollingState ∧
    initState.liveIntervals.length ≤ 1 :=
  ⟨claim1_single_active_poll_session.1 pollingState 1 rfl,
   claim1_single_active_poll_session.2.1 agvPollingState (some 7) 2 rfl,
   claim1_single_active_poll_session.2.2 initState Relation.ReflTransGen.refl⟩

/-- C5: one patrol round with `AGV_X_POSITIONS = 5` and
`TRACK_Y_POSITIONS = 9` is exactly the concatenation over columns 1..5 of the
y-sequence 6,7,8,9 for odd columns and 9,8,7,6 for even columns — 20
waypoints — and `startPatrol(n)` runs that round `n` times. -/
theorem claim5_patrol_waypoints (n : Nat) :
    patrolRound =
      [(1, 6), (1, 7), (1, 8), (1, 9),
       (2, 9), (2, 8), (2, 7), (2, 6),
       (3, 6), (3, 7), (3, 8), (3, 9),
       (4, 9), (4, 8), (4, 7), (4, 6),
       (5, 6), (5, 7), (5, 8), (5, 9)] ∧
    patrolRound.length = 20 ∧
    patrolPlan n = (List.replicate n patrolRound).flatten := by
  refine ⟨by decide, by decide, ?_⟩
  unfold patrolPlan
  exact range'_flatMap_const patrolRound 1 n

/-- C6: a dispatch attempted while the busy flag is set is a complete no-op
in both variants: no remote `/click` call is issued and the state — busy flag
and polling bookkeeping included — is returned unchanged. -/
theorem claim6_busy_dispatch_noop :
    (∀ (x y : Nat) (s : FrontState), s.isSystemBusy = true →
      sendClickStart x y s = (s, [])) ∧
    (∀ (x y : Nat) (s : AgvState), s.isAgvBusy = true →
      agvSendClickStart x y s = (s, [])) := by
  constructor
  · intro x y s hb; unfold sendClickStart; rw [hb]; rfl
  · intro x y s hb; unfold agvSendClickStart; rw [hb]; rfl

/-- Witness for C6: a dispatch in concrete busy states of both variants does
nothing. -/
theorem claim6_witness :
    sendClickStart 3 4 busyState = (busyState, []) ∧
    agvSendClickStart 3 4 { agvReadyState with isAgvBusy := true } =
      ({ agvReadyState with isAgvBusy := true }, []) :=
  ⟨claim6_busy_dispatch_noop.1 3 4 busyState rfl,
   claim6_busy_dispatch_noop.2 3 4 { agvReadyState with isAgvBusy := true } rfl⟩

/-- C9: the indicator initial-position computation agrees everywhere with the
spec's description of it — a static lookup taking a location tag to a grid
column or the home position, with every missing or unknown tag mapped to
home. -/
theorem claim9_indicator_lookup_matches_spec :
    ∀ t : Option String, indicatorInitialPosition t = specIndicatorPosition t := by
  intro t
  cases t with
  | none => rfl
  | some s =>
    unfold indicatorInitialPosition specIndicatorPosition TARGET_TAG_TO_X
    dsimp only
    split_ifs <;> rfl

/-- C10: stopping the poll loop is a no-op (waiter neither invoked nor
cleared, nothing changed) when no interval is active; when an interval is
active, the stop clears the interval, clears the waiter, and the emitted
trace invokes the waiter exactly once iff one was registered. -/
theorem claim10_stop_resolves_waiter_only_with_interval (s : FrontState) :
    (s.systemPollingIntervalId = none → stopPollingSystemStatus s = (s, [])) ∧
    (∀ h, s.systemPollingIntervalId = some h →
      stopPollingSystemStatus s =
        ({ s with systemPollingIntervalId := none
                  liveIntervals := s.liveIntervals.erase h
                  patrolResolveFunction := false },
         if s.patrolResolveFunction then [Event.resolvePatrol] else []) ∧
      ((stopPollingSystemStatus s).2.filter isResolveEvent).length =
        (if s.patrolResolveFunction then 1 else 0)) := by
  refine ⟨stopPolling_of_none s, ?_⟩
  intro h hid
  refine ⟨stopPolling_of_some s h hid, ?_⟩
  rw [stopPolling_of_some s h hid]
  cases hp : s.patrolResolveFunction <;> simp [isResolveEvent]

/-- C2 counterexample: in the `src/static/app.js` variant, a dispatch from
the ready state whose acknowledgment is a rejection (`!d.ok`) leaves the busy
flag set — the state is not rolled back to READY as the claim asserts for
every dispatch. -/
theorem claim2_counterexample :
    (agvSendClickStart 7 3 agvReadyState).2 = [Event.remoteClick 7 3] ∧
    (agvSendClickResponse AgvClickResponse.notOk 0
      (agvSendClickStart 7 3 agvReadyState).1).isAgvBusy = true :=
  ⟨rfl, rfl⟩

/-- C2 (amended): a dispatch acknowledged with a rejection starts no poll
loop in either variant, and the README (patrol) variant rolls the busy state
back to READY — but the `src/static/app.js` variant keeps the busy flag
set. -/
theorem claim2_rejection_rollback_per_variant :
    (∀ (x y h : Nat) (e : Option String) (s : FrontState), s.isSystemBusy = false →
      (sendClickResponse (ClickResponse.rejected e) h
        (sendClickStart x y s).1).1.isSystemBusy = false ∧
      (sendClickResponse (ClickResponse.rejected e) h
        (sendClickStart x y s).1).1.systemPollingIntervalId = none) ∧
    (∀ (x y h : Nat) (s : AgvState), s.isAgvBusy = false →
      (agvSendClickResponse AgvClickResponse.notOk h
        (agvSendClickStart x y s).1).isAgvBusy = true ∧
      (agvSendClickResponse AgvClickResponse.notOk h
        (agvSendClickStart x y s).1).agvPollingIntervalId = none) := by
  constructor
  · intro x y h e s hb
    exact ⟨(stopPolling_isSystemBusy _).trans (by simp),
           stopPolling_intervalId_result _⟩
  · intro x y h s hb
    have h1 : (agvSendClickStart x y s).1 = { s with isAgvBusy := true } := by
      unfold agvSendClickStart; rw [hb]; rfl
    rw [h1]
    exact ⟨(stopAgv_isAgvBusy _).trans rfl, stopAgv_intervalId_result _⟩

/-- Witness for C2: the amended behavior at a concrete ready state of each
variant. -/
theorem claim2_witness :
    ((sendClickResponse (ClickResponse.rejected (some "busy")) 0
        (sendClickStart 7 3 initState).1).1.isSystemBusy = false ∧
      (sendClickResponse (ClickResponse.rejected (some "busy")) 0
        (sendClickStart 7 3 initState).1).1.systemPollingIntervalId = none) ∧
    ((agvSendClickResponse AgvClickResponse.notOk 0
        (agvSendClickStart 7 3 agvReadyState).1).isAgvBusy = true ∧
      (agvSendClickResponse AgvClickResponse.notOk 0
        (agvSendClickStart 7 3 agvReadyState).1).agvPollingIntervalId = none) :=
  ⟨claim2_rejection_rollback_per_variant.1 7 3 0 (some "busy") initState rfl,
   claim2_rejection_rollback_per_variant.2 7 3 0 agvReadyState rfl⟩

/-- C7: a poll tick whose fetch fails is treated exactly as a busy snapshot
with a communication-error message; the interval is untouched, no outward
effect is produced, and any number of consecutive failing ticks still leaves
the interval installed — a permanently failing fetch polls forever. -/
theorem claim7_fetch_failure_polls_forever (s : FrontState) (m : String) (n : Nat) :
    (pollSystemStatus (PollResponse.fetchError m) s).1 =
      { updateSystemBusyStatus true ("通訊錯誤：" ++ m) s with wasSystemBusy := true } ∧
    (pollSystemStatus (PollResponse.fetchError m) s).1.isSystemBusy = true ∧
    (pollSystemStatus (PollResponse.fetchError m) s).1.systemPollingIntervalId =
      s.systemPollingIntervalId ∧
    (pollSystemStatus (PollResponse.fetchError m) s).2 = [] ∧
    (failTicksIter m n s).systemPollingIntervalId = s.systemPollingIntervalId := by
  refine ⟨rfl, rfl, rfl, rfl, ?_⟩
  induction n generalizing s with
  | zero => rfl
  | succ k ih =>
    show (failTicksIter m k (pollSystemStatus (PollResponse.fetchError m) s).1).systemPollingIntervalId = _
    rw [ih]
    rfl

/-- C8 counterexample: clicking the right face of the last column dispatches
`(7, y)`, whose x-coordinate lies outside `[1, COLS]` — not every click-driven
dispatch addresses a cell of the COLS-by-ROWS grid. -/
theorem claim8_counterexample :
    onClickDispatch (Hit.cube 6 3 Face.right) = some (7, 3) ∧ ¬(7 ≤ COLS) :=
  ⟨rfl, by decide⟩

/-- C8 (amended): every click-driven dispatch carries `y` in `[1, ROWS]`
unchanged and `x` in `[1, COLS + 1]`; the value `COLS + 1 = 7` occurs exactly
for a right-face hit on the last column, every front-face hit staying in
`[1, COLS]`. -/
theorem claim8_click_dispatch_bounds (x y : Nat) (f : Face) (cx cy : Nat)
    (hx1 : 1 ≤ x) (hx2 : x ≤ COLS) (hy1 : 1 ≤ y) (hy2 : y ≤ ROWS)
    (hd : onClickDispatch (Hit.cube x y f) = some (cx, cy)) :
    1 ≤ cx ∧ cx ≤ COLS + 1 ∧ cy = y ∧ 1 ≤ cy ∧ cy ≤ ROWS ∧
    (COLS < cx → cx = 7 ∧ f = Face.right ∧ x = COLS) := by
  cases f with
  | front =>
    simp only [onClickDispatch, Option.some.injEq, Prod.mk.injEq] at hd
    obtain ⟨rfl, rfl⟩ := hd
    refine ⟨hx1, by unfold COLS at hx2 ⊢; omega, rfl, hy1, hy2, ?_⟩
    intro hlt
    exact False.elim (by unfold COLS at hx2 hlt; omega)
  | right =>
    by_cases hxc : x = COLS
    · simp only [onClickDispatch, hxc, if_true, Option.some.injEq, Prod.mk.injEq] at hd
      obtain ⟨rfl, rfl⟩ := hd
      exact ⟨by decide, by decide, rfl, hy1, hy2, fun _ => ⟨rfl, rfl, hxc⟩⟩
    · simp [onClickDispatch, hxc] at hd
  | other => simp [onClickDispatch] at hd

/-- Witness for C8: a front-face click on cell (1, 2) dispatches (1, 2), which
satisfies the amended bounds. -/
theorem claim8_witness :
    (1 ≤ 1 ∧ 1 ≤ COLS ∧ 1 ≤ 2 ∧ 2 ≤ ROWS ∧
      onClickDispatch (Hit.cube 1 2 Face.front) = some (1, 2)) ∧
    (1 ≤ 1 ∧ 1 ≤ COLS + 1 ∧ 2 = 2 ∧ 1 ≤ 2 ∧ 2 ≤ ROWS ∧
      (COLS < 1 → 1 = 7 ∧ Face.front = Face.right ∧ 1 = COLS)) :=
  ⟨⟨by decide, by decide, by decide, by decide, rfl⟩,
   claim8_click_dispatch_bounds 1 2 Face.front 1 2 (by decide) (by decide)
     (by decide) (by decide) rfl⟩

/-- C3: in a dispatch whose poll snapshots report busy, busy, then not busy —
followed by any number of further not-busy firings — the whole trace contains
exactly one capture request, and it carries the coordinate stored at dispatch
time.  (After the edge the interval is cleared, so later firings are
no-ops.) -/
theorem claim3_capture_exactly_once_per_edge (x y h m : Nat) :
    ((clickScenario x y h
        (PollResponse.summary true none :: PollResponse.summary true none ::
          PollResponse.summary false none ::
          List.replicate m (PollResponse.summary false none))).2.filter isCaptureEvent) =
      [Event.captureRequest (some (XY.num x)) (some (XY.num y))] ∧
    (clickScenario x y h
        (PollResponse.summary true none :: PollResponse.summary true none ::
          PollResponse.summary false none ::
          List.replicate m (PollResponse.summary false none))).1.systemPollingIntervalId =
      none := by
  constructor <;>
    simp [clickScenario, runTicks, runTicks_of_none, tick, pollSystemStatus,
      sendClickStart, sendClickResponse, startPollingSystemStatus,
      stopPollingSystemStatus, updateSystemBusyStatus, triggerCapture, jsOr,
      initState, isCaptureEvent]

/-- C4 counterexample: a patrol step dispatched from the idle state (no
polling interval) whose acknowledgment is a server rejection leaves the
registered step waiter unresolved — the resolve function is still stored, no
resolve was invoked — so the pending step wait does not terminate and the
sequencer cannot proceed, contrary to the claim. -/
theorem claim4_counterexample :
    (sendClickResponse (ClickResponse.rejected (some "busy")) 0
      (dispatchClickAndWaitStart 1 6 initState).1).1.patrolResolveFunction = true ∧
    ((sendClickResponse (ClickResponse.rejected (some "busy")) 0
      (dispatchClickAndWaitStart 1 6 initState).1).2.filter isResolveEvent) = [] ∧
    (sendClickResponse (ClickResponse.rejected (some "busy")) 0
      (dispatchClickAndWaitStart 1 6 initState).1).1.isSystemBusy = false :=
  ⟨rfl, rfl, rfl⟩

/-- C4 (amended): a patrol-step failure is surfaced as a status message and
never aborts anything, but the two failure kinds differ: a server-rejected
dispatch (while no interval is active) leaves the registered waiter
uninvoked and still stored, so the step wait does not terminate; a failing
poll tick keeps the interval and the waiter intact, and a later not-busy tick
still resolves the waiter exactly once. -/
theorem claim4_step_failure_semantics :
    (∀ (x y hnd : Nat) (e : Option String) (s : FrontState),
      s.isSystemBusy = false → s.systemPollingIntervalId = none →
      (sendClickResponse (ClickResponse.rejected e) hnd
          (dispatchClickAndWaitStart x y s).1).1.patrolResolveFunction = true ∧
      ((sendClickResponse (ClickResponse.rejected e) hnd
          (dispatchClickAndWaitStart x y s).1).2.filter isResolveEvent) = [] ∧
      (sendClickResponse (ClickResponse.rejected e) hnd
          (dispatchClickAndWaitStart x y s).1).1.statusMessage =
        "系統就緒：指令被伺服器拒絕，請重試。" ∧
      (sendClickResponse (ClickResponse.rejected e) hnd
          (dispatchClickAndWaitStart x y s).1).1.isSystemBusy = false) ∧
    (∀ (s : FrontState) (hnd : Nat) (m : String),
      s.systemPollingIntervalId = some hnd → s.patrolResolveFunction = true →
      (pollSystemStatus (PollResponse.fetchError m) s).1.systemPollingIntervalId =
        some hnd ∧
      (pollSystemStatus (PollResponse.fetchError m) s).1.patrolResolveFunction = true ∧
      ((pollSystemStatus (PollResponse.fetchError m) s).2.filter isResolveEvent) = [] ∧
      ((pollSystemStatus (PollResponse.summary false none)
          (pollSystemStatus (PollResponse.fetchError m) s).1).2.filter isResolveEvent) =
        [Event.resolvePatrol] ∧
      (pollSystemStatus (PollResponse.summary false none)
          (pollSystemStatus (PollResponse.fetchError m) s).1).1.patrolResolveFunction =
        false) := by
  constructor
  · intro x y hnd e s hb hid
    refine ⟨?_, ?_, ?_, ?_⟩ <;>
      simp [dispatchClickAndWaitStart, sendClickStart, sendClickResponse,
        updateSystemBusyStatus, stopPolling_of_none, jsOr, hb, hid, isResolveEvent]
  · intro s hnd m hid hp
    refine ⟨?_, ?_, ?_, ?_, ?_⟩ <;>
      simp [pollSystemStatus, updateSystemBusyStatus, triggerCapture,
        stopPollingSystemStatus, jsOr, hid, hp, isResolveEvent]

/-- Witness for C4: the amended semantics at concrete inputs — a rejected
step from the idle state, and a failing tick followed by a not-busy tick in a
concrete mid-patrol state. -/
theorem claim4_witness :
    ((sendClickResponse (ClickResponse.rejected (some "err")) 0
        (dispatchClickAndWaitStart 2 7 initState).1).1.patrolResolveFunction = true ∧
      ((sendClickResponse (ClickResponse.rejected (some "err")) 0
        (dispatchClickAndWaitStart 2 7 initState).1).2.filter isResolveEvent) = [] ∧
      (sendClickResponse (ClickResponse.rejected (some "err")) 0
        (dispatchClickAndWaitStart 2 7 initState).1).1.statusMessage =
        "系統就緒：指令被伺服器拒絕，請重試。" ∧
      (sendClickResponse (ClickResponse.rejected (some "err")) 0
        (dispatchClickAndWaitStart 2 7 initState).1).1.isSystemBusy = false) ∧
    ((pollSystemStatus (PollResponse.fetchError "boom")
        patrolPollingState).1.systemPollingIntervalId = some 3 ∧
      (pollSystemStatus (PollResponse.fetchError "boom")
        patrolPollingState).1.patrolResolveFunction = true ∧
      ((pollSystemStatus (PollResponse.fetchError "boom")
        patrolPollingState).2.filter isResolveEvent) = [] ∧
      ((pollSystemStatus (PollResponse.summary false none)
          (pollSystemStatus (PollResponse.fetchError "boom")
            patrolPollingState).1).2.filter isResolveEvent) = [Event.resolvePatrol] ∧
      (pollSystemStatus (PollResponse.summary false none)
          (pollSystemStatus (PollResponse.fetchError "boom")
            patrolPollingState).1).1.patrolResolveFunction = false) :=
  ⟨claim4_step_failure_semantics.1 2 7 0 (some "err") initState rfl rfl,
   claim4_step_failure_semantics.2 patrolPollingState 3 "boom" rfl rfl⟩

/-- Witness for C10 at a concrete mid-patrol state: the stop clears the
interval and waiter and the trace invokes the waiter exactly once. -/
theorem claim10_witness :
    stopPollingSystemStatus patrolPollingState =
      ({ patrolPollingState with
          systemPollingIntervalId := none
          liveIntervals := patrolPollingState.liveIntervals.erase 3
          patrolResolveFunction := false },
       if patrolPollingState.patrolResolveFunction then [Event.resolvePatrol] else []) ∧
    ((stopPollingSystemStatus patrolPollingState).2.filter isResolveEvent).length =
      (if patrolPollingState.patrolResolveFunction then 1 else 0) :=
  (claim10_stop_resolves_waiter_only_with_interval patrolPollingState).2 3 rfl

end VRController
